import Mathlib

/-!
# buildpacks-venom: the `pack` and `random-image-name` executors

A shallow embedding of `pkg/executors/pack/executor.go` and
`pkg/executors/image/executor.go`.

* Go strings are `String`, `[]string` is `List String`, `*int` is `Option Int`.
* A Go `map[string]string` that is only ranged over is the list of its entries
  in the order the `range` statement visits them.
* A Go function that can hit a run-time panic returns an `Outcome`.
* The operating system (executable lookup, subprocesses) and the random source
  are parameters: every theorem holds for all of them.
-/

set_option autoImplicit false

namespace BuildpacksVenom

/-- The way a Go call ends: with a run-time panic, or by returning a value. -/
inductive Outcome (α : Type) where
  | panicked (msg : String)
  | returned (val : α)
  deriving Repr, DecidableEq

/-! ## Package `pack`: option record and argument generation -/

namespace pack

/-- The `Executor` struct of package `pack` (executor.go, lines 27-45).
`Env` lists the entries of the Go map in the order `range` yields them;
`GID` is the `*int` field, `none` for a nil pointer. -/
structure Executor where
  ImageName : String := ""
  Builder : String := ""
  Buildpacks : List String := []
  ClearCache : Bool := false
  Env : List (String × String) := []
  ExtraArgs : List String := []
  GID : Option Int := none
  Network : String := ""
  NoColor : Bool := false
  NoPull : Bool := false
  PackBinary : String := ""
  Path : String := ""
  PullPolicy : String := ""
  SBOMOutputDir : String := ""
  TrustBuilder : Bool := false
  Verbose : Bool := false
  Volumes : List String := []
  deriving Repr, DecidableEq

/-- Go `strconv.Itoa`: the base-10 text of an integer, with a leading `-`
for a negative one. -/
def Itoa (i : Int) : String :=
  match i with
  | Int.ofNat n => Nat.repr n
  | Int.negSucc n => "-" ++ Nat.repr (n + 1)

/-- Lines 58-60: `if e.Builder != "" { args = append(args, "--builder", e.Builder) }`. -/
def appendBuilder (e : Executor) (args : List String) : List String :=
  if e.Builder ≠ "" then args ++ ["--builder", e.Builder] else args

/-- Lines 61-63: `for _, bp := range e.Buildpacks { args = append(args, "-b", bp) }`. -/
def appendBuildpacks (e : Executor) (args : List String) : List String :=
  e.Buildpacks.foldl (fun acc bp => acc ++ ["-b", bp]) args

/-- Lines 64-66: `if e.ClearCache { args = append(args, "--clear-cache") }`. -/
def appendClearCache (e : Executor) (args : List String) : List String :=
  if e.ClearCache then args ++ ["--clear-cache"] else args

/-- Lines 67-69: `for name, value := range e.Env` appending `"-e"` and
`fmt.Sprintf("%s=%s", name, value)`. -/
def appendEnv (e : Executor) (args : List String) : List String :=
  e.Env.foldl (fun acc nv => acc ++ ["-e", nv.1 ++ "=" ++ nv.2]) args

/-- Line 70: `args = append(args, e.ExtraArgs...)`. -/
def appendExtraArgs (e : Executor) (args : List String) : List String :=
  args ++ e.ExtraArgs

/-- Lines 71-73: `if e.GID != nil { args = append(args, "--gid", strconv.Itoa(*e.GID)) }`. -/
def appendGID (e : Executor) (args : List String) : List String :=
  match e.GID with
  | some gid => args ++ ["--gid", Itoa gid]
  | none => args

/-- Lines 74-76: `if e.Network != ""`. -/
def appendNetwork (e : Executor) (args : List String) : List String :=
  if e.Network ≠ "" then args ++ ["--network", e.Network] else args

/-- Lines 77-79: `if e.NoColor`. -/
def appendNoColor (e : Executor) (args : List String) : List String :=
  if e.NoColor then args ++ ["--no-color"] else args

/-- Lines 80-82: `if e.NoPull`. -/
def appendNoPull (e : Executor) (args : List String) : List String :=
  if e.NoPull then args ++ ["--no-pull"] else args

/-- Lines 83-85: `if e.Path != ""`. -/
def appendPath (e : Executor) (args : List String) : List String :=
  if e.Path ≠ "" then args ++ ["-p", e.Path] else args

/-- Lines 86-88: `if e.PullPolicy != ""`. -/
def appendPullPolicy (e : Executor) (args : List String) : List String :=
  if e.PullPolicy ≠ "" then args ++ ["--pull-policy", e.PullPolicy] else args

/-- Lines 89-91: `if e.SBOMOutputDir != ""`. -/
def appendSBOMOutputDir (e : Executor) (args : List String) : List String :=
  if e.SBOMOutputDir ≠ "" then args ++ ["--sbom-output-dir", e.SBOMOutputDir] else args

/-- Lines 92-94: `if e.TrustBuilder`. -/
def appendTrustBuilder (e : Executor) (args : List String) : List String :=
  if e.TrustBuilder then args ++ ["--trust-builder"] else args

/-- Lines 95-97: `if e.Verbose`. -/
def appendVerbose (e : Executor) (args : List String) : List String :=
  if e.Verbose then args ++ ["--verbose"] else args

/-- Lines 98-100: `for _, vol := range e.Volumes { args = append(args, "--volume", vol) }`. -/
def appendVolumes (e : Executor) (args : List String) : List String :=
  e.Volumes.foldl (fun acc vol => acc ++ ["--volume", vol]) args

/-- `Executor.generateArgs` (lines 56-102): the variable `args` is threaded
through the statements of the body, top to bottom. -/
def generateArgs (e : Executor) : List String :=
  let args := ["build", e.ImageName]
  let args := appendBuilder e args
  let args := appendBuildpacks e args
  let args := appendClearCache e args
  let args := appendEnv e args
  let args := appendExtraArgs e args
  let args := appendGID e args
  let args := appendNetwork e args
  let args := appendNoColor e args
  let args := appendNoPull e args
  let args := appendPath e args
  let args := appendPullPolicy e args
  let args := appendSBOMOutputDir e args
  let args := appendTrustBuilder e args
  let args := appendVerbose e args
  let args := appendVolumes e args
  args

/-- The argument list as the specification words it: the sixteen groups of
tokens of the argument-generation algorithm, concatenated in order. -/
def expectedArgs (e : Executor) : List String :=
  ["build", e.ImageName]
    ++ (if e.Builder ≠ "" then ["--builder", e.Builder] else [])
    ++ (e.Buildpacks.map fun bp => ["-b", bp]).flatten
    ++ (if e.ClearCache = true then ["--clear-cache"] else [])
    ++ (e.Env.map fun nv => ["-e", nv.1 ++ "=" ++ nv.2]).flatten
    ++ e.ExtraArgs
    ++ (match e.GID with
        | some gid => ["--gid", Itoa gid]
        | none => [])
    ++ (if e.Network ≠ "" then ["--network", e.Network] else [])
    ++ (if e.NoColor = true then ["--no-color"] else [])
    ++ (if e.NoPull = true then ["--no-pull"] else [])
    ++ (if e.Path ≠ "" then ["-p", e.Path] else [])
    ++ (if e.PullPolicy ≠ "" then ["--pull-policy", e.PullPolicy] else [])
    ++ (if e.SBOMOutputDir ≠ "" then ["--sbom-output-dir", e.SBOMOutputDir] else [])
    ++ (if e.TrustBuilder = true then ["--trust-builder"] else [])
    ++ (if e.Verbose = true then ["--verbose"] else [])
    ++ (e.Volumes.map fun vol => ["--volume", vol]).flatten

/-- The sixteen groups of tokens of the argument-generation algorithm, one per
step and in the order of the steps: group 0 is `build <ImageName>`, group 1
belongs to Builder, 2 to Buildpacks, 3 to ClearCache, 4 to Env, 5 to
ExtraArgs, 6 to GID, 7 to Network, 8 to NoColor, 9 to NoPull, 10 to Path, 11
to PullPolicy, 12 to SBOMOutputDir, 13 to TrustBuilder, 14 to Verbose and 15
to Volumes. Each group reads its own field only. -/
def argGroups (e : Executor) : List (List String) :=
  [ ["build", e.ImageName],
    if e.Builder ≠ "" then ["--builder", e.Builder] else [],
    (e.Buildpacks.map fun bp => ["-b", bp]).flatten,
    if e.ClearCache = true then ["--clear-cache"] else [],
    (e.Env.map fun nv => ["-e", nv.1 ++ "=" ++ nv.2]).flatten,
    e.ExtraArgs,
    match e.GID with
    | some gid => ["--gid", Itoa gid]
    | none => [],
    if e.Network ≠ "" then ["--network", e.Network] else [],
    if e.NoColor = true then ["--no-color"] else [],
    if e.NoPull = true then ["--no-pull"] else [],
    if e.Path ≠ "" then ["-p", e.Path] else [],
    if e.PullPolicy ≠ "" then ["--pull-policy", e.PullPolicy] else [],
    if e.SBOMOutputDir ≠ "" then ["--sbom-output-dir", e.SBOMOutputDir] else [],
    if e.TrustBuilder = true then ["--trust-builder"] else [],
    if e.Verbose = true then ["--verbose"] else [],
    (e.Volumes.map fun vol => ["--volume", vol]).flatten ]

/-! ## JSON documents and the decoder behind `venom.JSONUnmarshal`

`venom.JSONUnmarshal` is `json.NewDecoder(...)` with `UseNumber()` followed by
one `Decode`. The scanner of `encoding/json` (bytes to JSON text) is not
modelled: the standard output of the inspect subprocess is given by what the
scanner reads from it (`InspectOutput`). What `Decode` then does with a JSON
value and the anonymous struct of lines 144-146 follows the documented rules
of `encoding/json`. -/

/-- A JSON value as written: the members of an object in document order,
repeated names included; a number by its literal text. -/
inductive JValue where
  | null
  | bool (b : Bool)
  | number (lit : String)
  | str (s : String)
  | arr (items : List JValue)
  | obj (members : List (String × JValue))
  deriving Repr

/-- A Go value of type `interface{}` as `encoding/json` builds it: `nil`,
`bool`, `json.Number`, `string`, `[]interface{}` or `map[string]interface{}`.
A map is the list of its entries, every key once. -/
inductive GoValue where
  | nil
  | bool (b : Bool)
  | number (lit : String)
  | str (s : String)
  | slice (items : List GoValue)
  | map (entries : List (String × GoValue))
  deriving Repr

/-- A Go `map[string]interface{}`: entries with pairwise distinct keys. -/
abbrev GoMap := List (String × GoValue)

/-- Go `m[k] = v`: the entry for `k` is overwritten, or added when there is none. -/
def mapSet (m : GoMap) (k : String) (v : GoValue) : GoMap :=
  match m with
  | [] => [(k, v)]
  | (k1, v1) :: rest => if k1 = k then (k, v) :: rest else (k1, v1) :: mapSet rest k v

mutual
/-- Decoding a JSON value into an empty `interface{}` (`valueInterface`). -/
def valueInterface : JValue → GoValue
  | JValue.null => GoValue.nil
  | JValue.bool b => GoValue.bool b
  | JValue.number lit => GoValue.number lit
  | JValue.str s => GoValue.str s
  | JValue.arr items => GoValue.slice (arrayInterface items)
  | JValue.obj members => GoValue.map (objectInto members [])
/-- Decoding the items of a JSON array into a `[]interface{}`. -/
def arrayInterface : List JValue → List GoValue
  | [] => []
  | v :: vs => valueInterface v :: arrayInterface vs
/-- Storing the members of a JSON object into the map `m`, in document
order: existing entries are kept, a repeated key is overwritten. -/
def objectInto : List (String × JValue) → GoMap → GoMap
  | [], m => m
  | (k, v) :: rest, m => objectInto rest (mapSet m k (valueInterface v))
end

/-- The match of a JSON object key with a struct field name: equal up to the
case of ASCII letters (`encoding/json` accepts a case-insensitive match). -/
def equalFold (s t : String) : Bool :=
  s.toList.map Char.toLower == t.toList.map Char.toLower

/-- The struct tag of line 145: `json:"local_info"`. -/
def infoTag : String := "local_info"

/-- The decoder's state while it fills the struct `v` of lines 144-146: the
field `Info` (`none` for a nil map) and the first error saved so far. -/
structure DecodeState where
  Info : Option GoMap := none
  savedError : Option String := none
  deriving Repr

/-- Decoder `saveError`: only the first error is kept. -/
def DecodeState.saveError (d : DecodeState) (msg : String) : DecodeState :=
  match d.savedError with
  | none => { d with savedError := some msg }
  | some _ => d

/-- Decoding one JSON value into the field `Info` of type
`map[string]interface{}`: `null` sets the map to nil, an object is stored into
the map (a nil map is allocated first), anything else is a type error that is
saved while the field is left as it is. -/
def decodeInfo (d : DecodeState) : JValue → DecodeState
  | JValue.null => { d with Info := none }
  | JValue.obj members => { d with Info := some (objectInto members (d.Info.getD [])) }
  | JValue.bool _ =>
    d.saveError "json: cannot unmarshal bool into Go struct field .local_info of type map[string]interface \x7b\x7d"
  | JValue.number _ =>
    d.saveError "json: cannot unmarshal number into Go struct field .local_info of type map[string]interface \x7b\x7d"
  | JValue.str _ =>
    d.saveError "json: cannot unmarshal string into Go struct field .local_info of type map[string]interface \x7b\x7d"
  | JValue.arr _ =>
    d.saveError "json: cannot unmarshal array into Go struct field .local_info of type map[string]interface \x7b\x7d"

/-- Decoding the members of a JSON object into the struct, in document order:
a member whose key matches the tag is decoded into `Info`, any other member is
skipped. -/
def decodeMembers : List (String × JValue) → DecodeState → DecodeState
  | [], d => d
  | (k, v) :: rest, d =>
    if equalFold k infoTag then decodeMembers rest (decodeInfo d v)
    else decodeMembers rest d

/-- Decoding a JSON value into the zero struct `v`: `null` leaves the struct
alone, an object is decoded member by member, any other value is a type error
(the error texts are shortened; nothing depends on them). -/
def decodeStruct : JValue → DecodeState
  | JValue.null => {}
  | JValue.obj members => decodeMembers members {}
  | JValue.bool _ => DecodeState.saveError {} "json: cannot unmarshal bool into Go value of type struct"
  | JValue.number _ => DecodeState.saveError {} "json: cannot unmarshal number into Go value of type struct"
  | JValue.str _ => DecodeState.saveError {} "json: cannot unmarshal string into Go value of type struct"
  | JValue.arr _ => DecodeState.saveError {} "json: cannot unmarshal array into Go value of type struct"

/-- The standard output of the inspect subprocess as the scanner of
`encoding/json` reads it: no well-formed JSON value at its start (empty
output included), or the first JSON value. -/
inductive InspectOutput where
  | malformed (reason : String)
  | value (doc : JValue)
  deriving Repr

/-- The call `venom.JSONUnmarshal(output, &v)` of line 147: the error, if any,
and the field `v.Info` afterwards. A syntax error is returned before anything
is decoded. -/
def JSONUnmarshal : InspectOutput → Option String × Option GoMap
  | InspectOutput.malformed reason => (some reason, none)
  | InspectOutput.value doc =>
    let d := decodeStruct doc
    (d.savedError, d.Info)

/-- Whether a JSON value is an object or `null`: the two values a field of
type `map[string]interface{}` accepts. -/
def JValue.isObjectOrNull : JValue → Bool
  | JValue.null => true
  | JValue.obj _ => true
  | JValue.bool _ => false
  | JValue.number _ => false
  | JValue.str _ => false
  | JValue.arr _ => false

/-- The inspect outputs that are a parse error, in words: no well-formed JSON;
a top-level value that is neither an object nor `null`; or an object with a
member whose key matches `local_info` and whose value is neither an object
nor `null`. -/
def shapeRejected : InspectOutput → Bool
  | InspectOutput.malformed _ => true
  | InspectOutput.value JValue.null => false
  | InspectOutput.value (JValue.obj members) =>
    members.any fun m => equalFold m.1 infoTag && !m.2.isObjectOrNull
  | InspectOutput.value (JValue.bool _) => true
  | InspectOutput.value (JValue.number _) => true
  | InspectOutput.value (JValue.str _) => true
  | InspectOutput.value (JValue.arr _) => true

/-- The inspect report `{"local_info":{"id":"sha256:abc"}}`. -/
def reportAbc : JValue :=
  JValue.obj [("local_info", JValue.obj [("id", JValue.str "sha256:abc")])]

/-- The inspect report
`{"local_info":{"id":"sha256:abc"},"LOCAL_INFO":{"id":"sha256:def"}}`. -/
def reportTwoKeys : JValue :=
  JValue.obj [("local_info", JValue.obj [("id", JValue.str "sha256:abc")]),
              ("LOCAL_INFO", JValue.obj [("id", JValue.str "sha256:def")])]

/-- The inspect report `{"local_info":5}`. -/
def reportNumberInfo : JValue := JValue.obj [("local_info", JValue.number "5")]

/-- The inspect report `{}`. -/
def reportEmpty : JValue := JValue.obj []

/-- The inspect report `{"local_info":null}`. -/
def reportNullInfo : JValue := JValue.obj [("local_info", JValue.null)]

/-! ## The operating system and the two-phase run -/

/-- The fields of an `exec.Cmd` that the executor sets: the resolved path,
the argument vector (`Args[0]` is the path, as `exec.Command` builds it) and
the working directory. The `Stdout` and `Stderr` buffers are the `stdout` and
`stderr` of `Completed`. -/
structure Cmd where
  Path : String
  Args : List String
  Dir : String := ""
  deriving Repr, DecidableEq

/-- Go `exec.Command(name, arg...)`. -/
def Command (name : String) (arg : List String) : Cmd :=
  { Path := name, Args := name :: arg }

/-- Go `(*exec.Cmd).String`: the path and the arguments, separated by blanks. -/
def Cmd.String (c : Cmd) : String :=
  " ".intercalate (c.Path :: c.Args.tail)

/-- A non-nil error of `(*exec.Cmd).Run`: an `*exec.ExitError` with its exit
code, or any other error (the process could not be started, ...). -/
inductive RunError where
  | exitError (code : Int)
  | other (msg : String)
  deriving Repr, DecidableEq

/-- What `(*exec.Cmd).Run` leaves behind: the bytes written to the `Stdout`
and `Stderr` buffers and the returned error (`none` for nil: exit status 0). -/
structure Completed where
  stdout : String := ""
  stderr : String := ""
  err : Option RunError := none
  deriving Repr, DecidableEq

/-- The environment of the executor, over a type `σ` of states of the world:
`path.Clean`, `exec.LookPath` (the resolved path or the error text),
`(*exec.Cmd).Run` and `(*exec.Cmd).Output` (the standard output, or the error
text). Running a subprocess may change the world. -/
structure OS (σ : Type) where
  Clean : String → String
  LookPath : σ → String → Except String String
  Run : σ → Cmd → Completed × σ
  Output : σ → Cmd → Except String InspectOutput × σ

/-- The state a run is threaded through: the world, and the subprocesses
handed to the operating system so far, oldest first. -/
structure Sys (σ : Type) where
  world : σ
  started : List Cmd := []

/-- The record `Result` of package `pack` (lines 48-54); `ImageInfo` is
`none` for a nil map. -/
structure Result where
  Code : Int := 0
  Command : String := ""
  Systemout : String := ""
  Systemerr : String := ""
  ImageInfo : Option GoMap := none
  deriving Repr

/-- `Executor.GenerateCommand` (lines 105-123): the pair `(cmd, err)`, `none`
for nil. `workdir` is `venom.StringVarFromCtx(ctx, "venom.testsuite.workdir")`. -/
def GenerateCommand {σ : Type} (os : OS σ) (workdir : String) (e : Executor) (w : σ) :
    Option Cmd × Option String :=
  let packBinary := e.PackBinary
  let packBinary := if packBinary = "" then "pack" else packBinary
  let packBinary := os.Clean packBinary
  match os.LookPath w packBinary with
  | Except.error err => (none, some ("unable to find pack the pack binary: " ++ err))
  | Except.ok packBinary =>
    if e.ImageName = "" then
      (none, some "image-name must be defined")
    else
      let cmd := Command packBinary (generateArgs e)
      let cmd := { cmd with Dir := workdir }
      (some cmd, none)

/-- `Executor.GenerateImageInfo` (lines 126-151): the pair `(info, err)` and
the state afterwards. -/
def GenerateImageInfo {σ : Type} (os : OS σ) (e : Executor) (s : Sys σ) :
    (Option GoMap × Option String) × Sys σ :=
  let packBinary := e.PackBinary
  let packBinary := if packBinary = "" then "pack" else packBinary
  let packBinary := os.Clean packBinary
  match os.LookPath s.world packBinary with
  | Except.error err => ((none, some ("unable to find pack the pack binary: " ++ err)), s)
  | Except.ok packBinary =>
    if e.ImageName = "" then
      ((none, some "image-name must be defined"), s)
    else
      let cmd := Command packBinary ["inspect", e.ImageName, "--output", "json", "-q"]
      let (output, w1) := os.Output s.world cmd
      let s1 : Sys σ := { world := w1, started := s.started ++ [cmd] }
      match output with
      | Except.error err => ((none, some err), s1)
      | Except.ok output =>
        match JSONUnmarshal output with
        | (some err, _) =>
          ((none, some ("unable to extract local_info from pack inspect output: " ++ err)), s1)
        | (none, info) => ((info, none), s1)

/-- `Executor.Run` (lines 154-185): how the call ends, with the pair
`(result, err)` when it returns, and the state afterwards. `step` is the
outcome of `mapstructure.Decode(step, &e)`: the error, or the decoded options.
The logging calls `venom.Info` and `venom.Error` have no part in the result. -/
def Run {σ : Type} (os : OS σ) (workdir : String) (step : Except String Executor)
    (s : Sys σ) : Outcome (Option Result × Option String) × Sys σ :=
  match step with
  | Except.error err => (Outcome.returned (none, some err), s)
  | Except.ok e =>
    let (command, err) := GenerateCommand os workdir e s.world
    -- lines 163-164: `command.Stderr = ...` dereferences `command`
    match command with
    | none => (Outcome.panicked "runtime error: invalid memory address or nil pointer dereference", s)
    | some command =>
      let res : Result := {}
      match err with
      | some err => (Outcome.returned (some res, some ("unable to execute pack: " ++ err)), s)
      | none =>
        let (done, w1) := os.Run s.world command
        let s1 : Sys σ := { world := w1, started := s.started ++ [command] }
        let res : Result :=
          match done.err with
          | some (RunError.exitError code) => { res with Code := code }
          | some (RunError.other _) => res
          | none => res
        let res : Result := { res with Systemout := done.stdout }
        let res : Result := { res with Systemerr := done.stderr }
        let res : Result := { res with Command := command.String }
        if res.Code = 0 then
          match GenerateImageInfo os e s1 with
          | ((_, some err), s2) =>
            (Outcome.returned (some {}, some ("unable to inspect image: " ++ err)), s2)
          | ((info, none), s2) =>
            (Outcome.returned (some { res with ImageInfo := info }, none), s2)
        else
          (Outcome.returned (some res, none), s1)

/-- A scripted operating system for concrete runs; its state counts the
subprocesses run so far. `found n` tells whether the binary is on the search
path at count `n`; `build` is what every `Run` leaves behind and `inspect`
what every `Output` returns. -/
def scriptedOS (found : Nat → Bool) (build : Completed)
    (inspect : Except String InspectOutput) : OS Nat where
  Clean := fun p => p
  LookPath := fun n name =>
    if found n then Except.ok ("/usr/local/bin/" ++ name)
    else Except.error ("exec: " ++ name ++ ": executable file not found in $PATH")
  Run := fun n _ => (build, n + 1)
  Output := fun n _ => (inspect, n + 1)


end pack

/-! ## Package `image`: the random image name -/

namespace image

/-- The record `Result` of package `image` (lines 26-28). -/
structure Result where
  Name : String
  deriving Repr, DecidableEq

/-- Line 30: `var letters = []rune("abcdefghijklmnopqrstuvwxyz")`. -/
def letters : List Char := "abcdefghijklmnopqrstuvwxyz".toList

/-- The package-level random source of `math/rand`, as a state machine:
`Intn n` draws a number and moves the source on. The field `Intn_lt` is the
documented contract of `rand.Intn`: the number lies in `[0, n)`. -/
structure RandSource (σ : Type) where
  Intn : Nat → σ → Nat × σ
  Intn_lt : ∀ (n : Nat) (s : σ), 0 < n → (Intn n s).1 < n

/-- A concrete random source for sample runs: the state counts the draws, and
the k-th draw of `Intn n` is `k % n`. -/
def cycleSource : RandSource Nat where
  Intn := fun n k => (k % n, k + 1)
  Intn_lt := fun _ k hn => Nat.mod_lt k hn

/-- The loop of `randSeq` (lines 35-38) from index `i` on, over the indices
still to visit: `b[i] = letters[rand.Intn(len(letters))]`. Indexing `letters`
out of range is a run-time panic. -/
def randLoop {σ : Type} (src : RandSource σ) :
    List Nat → σ → List Char → Outcome (List Char) × σ
  | [], s, b => (Outcome.returned b, s)
  | i :: rest, s, b =>
    let (k, s1) := src.Intn letters.length s
    match letters[k]? with
    | none => (Outcome.panicked "index out of range", s1)
    | some c => randLoop src rest s1 (b.set i c)

/-- The function `randSeq` (lines 32-40): a slice of 10 zero runes is filled
index by index and converted to a string. -/
def randSeq {σ : Type} (src : RandSource σ) (s : σ) : Outcome String × σ :=
  let randomStringLength := 10
  let b := List.replicate randomStringLength (Char.ofNat 0)
  match randLoop src (List.range b.length) s b with
  | (Outcome.panicked msg, s1) => (Outcome.panicked msg, s1)
  | (Outcome.returned b1, s1) => (Outcome.returned (String.mk b1), s1)

/-- The method `Executor.Run` of package `image` (lines 43-49): the pair of
the result and the error (`none` for a nil error). -/
def Run {σ : Type} (src : RandSource σ) (s : σ) :
    Outcome (Result × Option String) × σ :=
  match randSeq src s with
  | (Outcome.panicked msg, s1) => (Outcome.panicked msg, s1)
  | (Outcome.returned suffix, s1) =>
    (Outcome.returned ({ Name := "local.venom.buildpacks.io/pack-test-" ++ suffix }, none), s1)

end image


/-! ## Theorems: argument generation -/

namespace pack

theorem foldl_append_flatten {α : Type} (f : α → List String) (l : List α)
    (args : List String) :
    l.foldl (fun acc x => acc ++ f x) args = args ++ (l.map f).flatten := by
  induction l generalizing args with
  | nil => simp
  | cons x xs ih => simp [ih, List.append_assoc]

theorem appendBuilder_eq (e : Executor) (args : List String) :
    appendBuilder e args
      = args ++ (if e.Builder ≠ "" then ["--builder", e.Builder] else []) := by
  unfold appendBuilder; split_ifs <;> simp

theorem appendBuildpacks_eq (e : Executor) (args : List String) :
    appendBuildpacks e args = args ++ (e.Buildpacks.map fun bp => ["-b", bp]).flatten :=
  foldl_append_flatten (fun bp => ["-b", bp]) e.Buildpacks args

theorem appendClearCache_eq (e : Executor) (args : List String) :
    appendClearCache e args
      = args ++ (if e.ClearCache = true then ["--clear-cache"] else []) := by
  unfold appendClearCache; split_ifs <;> simp

theorem appendEnv_eq (e : Executor) (args : List String) :
    appendEnv e args = args ++ (e.Env.map fun nv => ["-e", nv.1 ++ "=" ++ nv.2]).flatten :=
  foldl_append_flatten (fun (nv : String × String) => ["-e", nv.1 ++ "=" ++ nv.2]) e.Env args

theorem appendGID_eq (e : Executor) (args : List String) :
    appendGID e args
      = args ++ (match e.GID with
          | some gid => ["--gid", Itoa gid]
          | none => []) := by
  unfold appendGID; cases e.GID <;> simp

theorem appendNetwork_eq (e : Executor) (args : List String) :
    appendNetwork e args
      = args ++ (if e.Network ≠ "" then ["--network", e.Network] else []) := by
  unfold appendNetwork; split_ifs <;> simp

theorem appendNoColor_eq (e : Executor) (args : List String) :
    appendNoColor e args = args ++ (if e.NoColor = true then ["--no-color"] else []) := by
  unfold appendNoColor; split_ifs <;> simp

theorem appendNoPull_eq (e : Executor) (args : List String) :
    appendNoPull e args = args ++ (if e.NoPull = true then ["--no-pull"] else []) := by
  unfold appendNoPull; split_ifs <;> simp

theorem appendPath_eq (e : Executor) (args : List String) :
    appendPath e args = args ++ (if e.Path ≠ "" then ["-p", e.Path] else []) := by
  unfold appendPath; split_ifs <;> simp

theorem appendPullPolicy_eq (e : Executor) (args : List String) :
    appendPullPolicy e args
      = args ++ (if e.PullPolicy ≠ "" then ["--pull-policy", e.PullPolicy] else []) := by
  unfold appendPullPolicy; split_ifs <;> simp

theorem appendSBOMOutputDir_eq (e : Executor) (args : List String) :
    appendSBOMOutputDir e args
      = args ++ (if e.SBOMOutputDir ≠ "" then ["--sbom-output-dir", e.SBOMOutputDir]
          else []) := by
  unfold appendSBOMOutputDir; split_ifs <;> simp

theorem appendTrustBuilder_eq (e : Executor) (args : List String) :
    appendTrustBuilder e args
      = args ++ (if e.TrustBuilder = true then ["--trust-builder"] else []) := by
  unfold appendTrustBuilder; split_ifs <;> simp

theorem appendVerbose_eq (e : Executor) (args : List String) :
    appendVerbose e args = args ++ (if e.Verbose = true then ["--verbose"] else []) := by
  unfold appendVerbose; split_ifs <;> simp

theorem appendVolumes_eq (e : Executor) (args : List String) :
    appendVolumes e args = args ++ (e.Volumes.map fun vol => ["--volume", vol]).flatten :=
  foldl_append_flatten (fun vol => ["--volume", vol]) e.Volumes args

/-- The statements of generateArgs, composed, append the sixteen groups. -/
theorem generateArgs_eq (e : Executor) : generateArgs e = expectedArgs e := by
  unfold generateArgs expectedArgs
  simp only [appendBuilder_eq, appendBuildpacks_eq, appendClearCache_eq, appendEnv_eq,
    appendExtraArgs, appendGID_eq, appendNetwork_eq, appendNoColor_eq, appendNoPull_eq,
    appendPath_eq, appendPullPolicy_eq, appendSBOMOutputDir_eq, appendTrustBuilder_eq,
    appendVerbose_eq, appendVolumes_eq]

/-- The argument list is the concatenation of the sixteen groups. -/
theorem generateArgs_eq_groups (e : Executor) : generateArgs e = (argGroups e).flatten := by
  rw [generateArgs_eq]
  simp [expectedArgs, argGroups]

/-- C1: for every option record, whatever the order in which the entries of
Env are visited, generateArgs returns exactly the sixteen groups of tokens of
the algorithm, concatenated in order (so ExtraArgs stand right after the Env
tokens and right before the GID tokens, and a GID of 0 still yields
`--gid 0`); PackBinary contributes nothing. -/
theorem generateArgs_eq_expectedArgs (e : Executor) :
    generateArgs e = expectedArgs e
      ∧ (∀ args : List String,
          appendGID { e with GID := some 0 } args = args ++ ["--gid", "0"])
      ∧ ∀ bin : String, generateArgs { e with PackBinary := bin } = generateArgs e := by
  exact ⟨generateArgs_eq e, fun _ => rfl, fun _ => rfl⟩

/-- C10: with every optional field absent or zero-valued generateArgs returns
exactly `["build", n]`; and for each optional field, once it is set to its
absent or zero value, its statement of generateArgs leaves the argument list
as it found it, and the argument list generateArgs returns is the
concatenation of the other fifteen groups of tokens, unchanged and in order:
the field contributes no token. -/
theorem generateArgs_absent_fields (n : String) (e : Executor) (args : List String) :
    generateArgs
        { ImageName := n, Builder := "", Buildpacks := [], ClearCache := false, Env := [],
          ExtraArgs := [], GID := none, Network := "", NoColor := false, NoPull := false,
          PackBinary := "", Path := "", PullPolicy := "", SBOMOutputDir := "",
          TrustBuilder := false, Verbose := false, Volumes := [] } = ["build", n]
      ∧ appendBuilder { e with Builder := "" } args = args
      ∧ appendBuildpacks { e with Buildpacks := [] } args = args
      ∧ appendClearCache { e with ClearCache := false } args = args
      ∧ appendEnv { e with Env := [] } args = args
      ∧ appendExtraArgs { e with ExtraArgs := [] } args = args
      ∧ appendGID { e with GID := none } args = args
      ∧ appendNetwork { e with Network := "" } args = args
      ∧ appendNoColor { e with NoColor := false } args = args
      ∧ appendNoPull { e with NoPull := false } args = args
      ∧ appendPath { e with Path := "" } args = args
      ∧ appendPullPolicy { e with PullPolicy := "" } args = args
      ∧ appendSBOMOutputDir { e with SBOMOutputDir := "" } args = args
      ∧ appendTrustBuilder { e with TrustBuilder := false } args = args
      ∧ appendVerbose { e with Verbose := false } args = args
      ∧ appendVolumes { e with Volumes := [] } args = args
      ∧ generateArgs e = (argGroups e).flatten
      ∧ generateArgs { e with Builder := "" } = ((argGroups e).eraseIdx 1).flatten
      ∧ generateArgs { e with Buildpacks := [] } = ((argGroups e).eraseIdx 2).flatten
      ∧ generateArgs { e with ClearCache := false } = ((argGroups e).eraseIdx 3).flatten
      ∧ generateArgs { e with Env := [] } = ((argGroups e).eraseIdx 4).flatten
      ∧ generateArgs { e with ExtraArgs := [] } = ((argGroups e).eraseIdx 5).flatten
      ∧ generateArgs { e with GID := none } = ((argGroups e).eraseIdx 6).flatten
      ∧ generateArgs { e with Network := "" } = ((argGroups e).eraseIdx 7).flatten
      ∧ generateArgs { e with NoColor := false } = ((argGroups e).eraseIdx 8).flatten
      ∧ generateArgs { e with NoPull := false } = ((argGroups e).eraseIdx 9).flatten
      ∧ generateArgs { e with Path := "" } = ((argGroups e).eraseIdx 10).flatten
      ∧ generateArgs { e with PullPolicy := "" } = ((argGroups e).eraseIdx 11).flatten
      ∧ generateArgs { e with SBOMOutputDir := "" } = ((argGroups e).eraseIdx 12).flatten
      ∧ generateArgs { e with TrustBuilder := false } = ((argGroups e).eraseIdx 13).flatten
      ∧ generateArgs { e with Verbose := false } = ((argGroups e).eraseIdx 14).flatten
      ∧ generateArgs { e with Volumes := [] } = ((argGroups e).eraseIdx 15).flatten := by
  refine ⟨rfl, rfl, rfl, rfl, rfl, ?_, rfl, rfl, rfl, rfl, rfl, rfl, rfl, rfl, rfl, rfl,
    generateArgs_eq_groups e, ?_, ?_, ?_, ?_, ?_, ?_, ?_, ?_, ?_, ?_, ?_, ?_, ?_, ?_, ?_⟩
  · simp [appendExtraArgs]
  all_goals
    rw [generateArgs_eq_groups]
    simp [argGroups, List.eraseIdx]

/-- A sample of C10: with Network empty and Builder set, the argument list
holds the builder tokens and no network token. -/
theorem generateArgs_empty_network :
    generateArgs { ImageName := "img", Builder := "heroku/builder:22", Network := "" }
      = ["build", "img", "--builder", "heroku/builder:22"] := by
  decide

end pack

/-! ## Theorems: the random image name -/

namespace image

theorem letters_getElem?_mem (k : Nat) (hk : k < letters.length) :
    ∃ c, letters[k]? = some c ∧ c ∈ letters :=
  ⟨letters[k], List.getElem?_eq_getElem hk, List.getElem_mem hk⟩

/-- The loop returns: the slice keeps its length, every visited index holds a
letter and every other index is untouched. -/
theorem randLoop_returns {σ : Type} (src : RandSource σ) (idxs : List Nat) :
    ∀ (s : σ) (b : List Char), ∃ (b1 : List Char) (s1 : σ),
      randLoop src idxs s b = (Outcome.returned b1, s1)
        ∧ b1.length = b.length
        ∧ ∀ (j : Nat) (c : Char), b1[j]? = some c →
            (j ∈ idxs → c ∈ letters) ∧ (j ∉ idxs → b[j]? = some c) := by
  induction idxs with
  | nil =>
    intro s b
    exact ⟨b, s, rfl, rfl, fun j c h => ⟨fun hj => by simp at hj, fun _ => h⟩⟩
  | cons i rest ih =>
    intro s b
    have hk : (src.Intn letters.length s).1 < letters.length :=
      src.Intn_lt letters.length s (by decide)
    obtain ⟨c0, hc0, hmem0⟩ := letters_getElem?_mem _ hk
    obtain ⟨b1, s1, hrun, hlen, hinv⟩ := ih (src.Intn letters.length s).2 (b.set i c0)
    refine ⟨b1, s1, ?_, ?_, ?_⟩
    · simp only [randLoop, hc0]
      exact hrun
    · simpa using hlen
    · intro j c hj
      obtain ⟨h1, h2⟩ := hinv j c hj
      constructor
      · intro hmem
        by_cases hr : j ∈ rest
        · exact h1 hr
        · have hji : j = i := by
            rcases List.mem_cons.mp hmem with h | h
            · exact h
            · exact absurd h hr
          have hset := h2 hr
          subst hji
          rw [List.getElem?_set] at hset
          simp only [if_true] at hset
          split_ifs at hset with hlt
          · cases hset
            exact hmem0
      · intro hnot
        have hji : i ≠ j := fun h => hnot (by simp [h])
        have hr : j ∉ rest := fun h => hnot (List.mem_cons_of_mem _ h)
        have hset := h2 hr
        rw [List.getElem?_set] at hset
        simpa [hji] using hset

/-- C9: whatever numbers the random source returns for Intn(26), each in
0..25, the name returned by Run is the fixed text
"local.venom.buildpacks.io/pack-test-" followed by exactly 10 characters, each
one of the 26 lowercase letters a..z; its length is 46, and Run returns no
error (and does not panic). -/
theorem Run_name_wellformed {σ : Type} (src : RandSource σ) (s : σ) :
    ∃ suffix : List Char,
      (Run src s).1
          = Outcome.returned
              ({ Name := "local.venom.buildpacks.io/pack-test-" ++ String.mk suffix }, none)
        ∧ suffix.length = 10
        ∧ (∀ c ∈ suffix, c ∈ "abcdefghijklmnopqrstuvwxyz".toList)
        ∧ ("local.venom.buildpacks.io/pack-test-" ++ String.mk suffix).length = 46 := by
  obtain ⟨b1, s1, hrun, hlen, hinv⟩ :=
    randLoop_returns src (List.range 10) s (List.replicate 10 (Char.ofNat 0))
  have hlen10 : b1.length = 10 := by simpa using hlen
  refine ⟨b1, ?_, hlen10, ?_, ?_⟩
  · simp only [Run, randSeq, List.length_replicate, hrun]
  · intro c hc
    obtain ⟨j, hj, hget⟩ := List.getElem_of_mem hc
    have hj10 : j ∈ List.range 10 := by
      rw [List.mem_range]; omega
    exact (hinv j c (by rw [List.getElem?_eq_getElem hj, hget])).1 hj10
  · rw [String.length_append]
    show "local.venom.buildpacks.io/pack-test-".length + b1.length = 46
    rw [hlen10]
    decide


/-- A sample run of the name generator: with the draws 0, 1, 2, ... the name
ends in the first ten letters. -/
theorem Run_cycleSource :
    (Run cycleSource 0).1
      = Outcome.returned
          ({ Name := "local.venom.buildpacks.io/pack-test-abcdefghij" }, none) := by
  rfl

/-- The witness of C9: the theorem at the source whose k-th draw is k mod 26. -/
theorem Run_name_wellformed_witness :
    ∃ suffix : List Char,
      (Run cycleSource 0).1
          = Outcome.returned
              ({ Name := "local.venom.buildpacks.io/pack-test-" ++ String.mk suffix }, none)
        ∧ suffix.length = 10
        ∧ (∀ c ∈ suffix, c ∈ "abcdefghijklmnopqrstuvwxyz".toList)
        ∧ ("local.venom.buildpacks.io/pack-test-" ++ String.mk suffix).length = 46 :=
  Run_name_wellformed cycleSource 0
end image

/-! ## Theorems: command resolution and the two-phase run -/

namespace pack

/-- C8: with an empty ImageName, GenerateCommand returns an error and no
command whether or not the builder binary is found, so there is nothing to
run; with a non-empty ImageName it fails exactly when the builder binary
(PackBinary, or "pack" when PackBinary is empty) cannot be resolved, and
otherwise returns the command for the resolved binary. -/
theorem GenerateCommand_fails_iff {σ : Type} (os : OS σ) (workdir : String)
    (e : Executor) (w : σ) :
    (e.ImageName = "" → ∃ err, GenerateCommand os workdir e w = (none, some err))
      ∧ (e.ImageName ≠ "" →
          ((∃ err, GenerateCommand os workdir e w = (none, some err))
            ↔ ∃ msg, os.LookPath w
                (os.Clean (if e.PackBinary = "" then "pack" else e.PackBinary))
                  = Except.error msg)
          ∧ ∀ p, os.LookPath w
                (os.Clean (if e.PackBinary = "" then "pack" else e.PackBinary))
                  = Except.ok p →
              GenerateCommand os workdir e w
                = (some { Path := p, Args := p :: generateArgs e, Dir := workdir }, none)) := by
  constructor
  · intro hname
    unfold GenerateCommand
    cases h : os.LookPath w (os.Clean (if e.PackBinary = "" then "pack" else e.PackBinary)) with
    | error msg => exact ⟨"unable to find pack the pack binary: " ++ msg, by simp [h]⟩
    | ok p => exact ⟨"image-name must be defined", by simp [h, hname]⟩
  · intro hname
    unfold GenerateCommand
    cases h : os.LookPath w (os.Clean (if e.PackBinary = "" then "pack" else e.PackBinary)) with
    | error msg => simp [h]
    | ok p => simp [h, hname, Command]

/-- The first witness of C8: an empty image name and a binary that is found. -/
theorem GenerateCommand_fails_iff_witness :
    (∃ err, GenerateCommand (scriptedOS (fun _ => true) {} (Except.error "not run"))
        "/work" { ImageName := "" } 0 = (none, some err))
      ∧ GenerateCommand (scriptedOS (fun _ => true) {} (Except.error "not run"))
          "/work" { ImageName := "img" } 0
        = (some { Path := "/usr/local/bin/pack",
                  Args := "/usr/local/bin/pack" :: generateArgs { ImageName := "img" },
                  Dir := "/work" }, none) :=
  ⟨(GenerateCommand_fails_iff _ _ _ _).1 rfl,
   ((GenerateCommand_fails_iff (scriptedOS (fun _ => true) {} (Except.error "not run"))
      "/work" { ImageName := "img" } 0).2 (by decide)).2 "/usr/local/bin/pack" rfl⟩

/-- C2 (what the code does): for every step whose decoded options have an
empty ImageName, whether or not the builder binary is found, Run panics on the
nil command of line 163 before it reaches its error check; it returns nothing
and starts no subprocess. -/
theorem Run_empty_ImageName_panics {σ : Type} (os : OS σ) (workdir : String)
    (e : Executor) (s : Sys σ) (hname : e.ImageName = "") :
    Run os workdir (Except.ok e) s
      = (Outcome.panicked "runtime error: invalid memory address or nil pointer dereference",
          s) := by
  unfold Run GenerateCommand
  cases h : os.LookPath s.world (os.Clean (if e.PackBinary = "" then "pack" else e.PackBinary)) with
  | error msg => simp [h]
  | ok p => simp [h, hname]

/-- The failing input of C2: image-name empty, binary on the search path. -/
theorem Run_empty_ImageName_panics_witness :
    Run (scriptedOS (fun _ => true) {} (Except.error "not run")) "/work"
        (Except.ok { ImageName := "" }) { world := 0 }
      = (Outcome.panicked "runtime error: invalid memory address or nil pointer dereference",
          { world := 0 }) :=
  Run_empty_ImageName_panics _ _ _ _ rfl

/-- C4: for valid options (ImageName non-empty, binary resolved) and a build
subprocess that exits with a non-zero code c, standard output o and standard
error s, Run returns no error and the result with Code = c, Systemout = o,
Systemerr = s and no ImageInfo; the build is the only subprocess started, so
the inspect phase is never invoked. -/
theorem Run_nonzero_exit {σ : Type} (os : OS σ) (workdir : String) (e : Executor)
    (s : Sys σ) (p : String) (c : Int) (o serr : String) (w1 : σ)
    (hname : e.ImageName ≠ "")
    (hbin : os.LookPath s.world
        (os.Clean (if e.PackBinary = "" then "pack" else e.PackBinary)) = Except.ok p)
    (hrun : os.Run s.world { Path := p, Args := p :: generateArgs e, Dir := workdir }
        = ({ stdout := o, stderr := serr, err := some (RunError.exitError c) }, w1))
    (hc : c ≠ 0) :
    Run os workdir (Except.ok e) s
      = (Outcome.returned
          (some { Code := c, Command := " ".intercalate (p :: generateArgs e),
                  Systemout := o, Systemerr := serr, ImageInfo := none }, none),
         { world := w1,
           started := s.started
             ++ [{ Path := p, Args := p :: generateArgs e, Dir := workdir }] }) := by
  simp [Run, GenerateCommand, hbin, hname, Command, hrun, hc, Cmd.String]

/-- The witness of C4: exit code 7 with "boom" on standard error. -/
theorem Run_nonzero_exit_witness :
    Run (scriptedOS (fun _ => true) { stderr := "boom", err := some (RunError.exitError 7) }
          (Except.error "not run")) "/work" (Except.ok { ImageName := "img" }) { world := 0 }
      = (Outcome.returned
          (some { Code := 7, Command := "/usr/local/bin/pack build img",
                  Systemout := "", Systemerr := "boom", ImageInfo := none }, none),
         { world := 1,
           started := [{ Path := "/usr/local/bin/pack",
                         Args := ["/usr/local/bin/pack", "build", "img"],
                         Dir := "/work" }] }) :=
  Run_nonzero_exit (scriptedOS (fun _ => true)
      { stderr := "boom", err := some (RunError.exitError 7) } (Except.error "not run"))
    "/work" { ImageName := "img" } { world := 0 } "/usr/local/bin/pack" 7 "" "boom" 1
    (by decide) rfl rfl (by decide)


theorem decodeMembers_eq_foldl (members : List (String × JValue)) :
    ∀ d : DecodeState, decodeMembers members d
      = (members.filter fun m => equalFold m.1 infoTag).foldl
          (fun d m => decodeInfo d m.2) d := by
  induction members with
  | nil => intro d; rfl
  | cons m rest ih =>
    intro d
    obtain ⟨k, v⟩ := m
    by_cases hk : equalFold k infoTag = true
    · simp [decodeMembers, hk, ih]
    · simp [decodeMembers, hk, ih]

theorem saveError_isSome (d : DecodeState) (msg : String) :
    (d.saveError msg).savedError.isSome = true := by
  unfold DecodeState.saveError
  cases h : d.savedError <;> simp [h]

theorem decodeInfo_savedError (d : DecodeState) (v : JValue) :
    (decodeInfo d v).savedError.isSome = (d.savedError.isSome || !v.isObjectOrNull) := by
  cases v <;> simp [decodeInfo, JValue.isObjectOrNull, saveError_isSome]

theorem decodeMembers_savedError (members : List (String × JValue)) :
    ∀ d : DecodeState, (decodeMembers members d).savedError.isSome
      = (d.savedError.isSome
          || members.any fun m => equalFold m.1 infoTag && !m.2.isObjectOrNull) := by
  induction members with
  | nil => intro d; simp [decodeMembers]
  | cons m rest ih =>
    intro d
    obtain ⟨k, v⟩ := m
    by_cases hk : equalFold k infoTag = true
    · simp [decodeMembers, hk, ih, decodeInfo_savedError, Bool.or_assoc]
    · simp [decodeMembers, hk, ih]

theorem decodeMembers_no_match (members : List (String × JValue))
    (h : ∀ m ∈ members, equalFold m.1 infoTag = false) :
    ∀ d : DecodeState, decodeMembers members d = d := by
  induction members with
  | nil => intro d; rfl
  | cons m rest ih =>
    intro d
    obtain ⟨k, v⟩ := m
    have hk : equalFold k infoTag = false := h (k, v) (List.mem_cons_self _ _)
    simp only [decodeMembers, hk]
    exact ih (fun m hm => h m (List.mem_cons_of_mem _ hm)) d

/-- The decoder returns an error exactly on the rejected shapes. -/
theorem JSONUnmarshal_error_iff (out : InspectOutput) :
    (JSONUnmarshal out).1.isSome = shapeRejected out := by
  cases out with
  | malformed reason => rfl
  | value doc =>
    cases doc with
    | obj members =>
      simp [JSONUnmarshal, decodeStruct, shapeRejected, decodeMembers_savedError]
    | null => rfl
    | bool b => rfl
    | number lit => rfl
    | str s => rfl
    | arr items => rfl

/-- An object with one member matching `local_info`, an object `X`, decodes
without error into the map of `X`. -/
theorem JSONUnmarshal_single (members X : List (String × JValue))
    (h : (members.filter fun m => equalFold m.1 infoTag) = [("local_info", JValue.obj X)]) :
    JSONUnmarshal (InspectOutput.value (JValue.obj members))
      = (none, some (objectInto X [])) := by
  simp [JSONUnmarshal, decodeStruct, decodeMembers_eq_foldl, h, decodeInfo]

/-- GenerateImageInfo once the binary is resolved and the subprocess has
produced its output: the outcome is that of the decoder. -/
theorem GenerateImageInfo_decoded {σ : Type} (os : OS σ) (e : Executor) (s : Sys σ)
    (p : String) (out : InspectOutput) (w1 : σ)
    (hname : e.ImageName ≠ "")
    (hbin : os.LookPath s.world
        (os.Clean (if e.PackBinary = "" then "pack" else e.PackBinary)) = Except.ok p)
    (hout : os.Output s.world (Command p ["inspect", e.ImageName, "--output", "json", "-q"])
        = (Except.ok out, w1)) :
    GenerateImageInfo os e s
      = (match JSONUnmarshal out with
          | (some err, _) =>
            (none, some ("unable to extract local_info from pack inspect output: " ++ err))
          | (none, info) => (info, none),
         { world := w1,
           started := s.started
             ++ [Command p ["inspect", e.ImageName, "--output", "json", "-q"]] }) := by
  unfold GenerateImageInfo
  simp only [hbin, hname, if_false, hout]
  cases hj : JSONUnmarshal out with
  | mk err info => cases err <;> rfl


/-- Run once the build subprocess has run and left `Code` at 0: the rest of
the call is the inspect phase. -/
theorem Run_after_build {σ : Type} (os : OS σ) (workdir : String) (e : Executor)
    (s : Sys σ) (p : String) (done : Completed) (w1 : σ)
    (hname : e.ImageName ≠ "")
    (hbin : os.LookPath s.world
        (os.Clean (if e.PackBinary = "" then "pack" else e.PackBinary)) = Except.ok p)
    (hrun : os.Run s.world { Path := p, Args := p :: generateArgs e, Dir := workdir }
        = (done, w1))
    (hcode : ∀ c, done.err = some (RunError.exitError c) → c = 0) :
    Run os workdir (Except.ok e) s
      = (match GenerateImageInfo os e
            { world := w1,
              started := s.started
                ++ [{ Path := p, Args := p :: generateArgs e, Dir := workdir }] } with
          | ((_, some err), s2) =>
            (Outcome.returned (some {}, some ("unable to inspect image: " ++ err)), s2)
          | ((info, none), s2) =>
            (Outcome.returned
              (some { Code := 0, Command := " ".intercalate (p :: generateArgs e),
                      Systemout := done.stdout, Systemerr := done.stderr,
                      ImageInfo := info }, none), s2)) := by
  obtain ⟨o, serr, err⟩ := done
  cases err with
  | none => simp [Run, GenerateCommand, hbin, hname, Command, hrun, Cmd.String]
  | some r =>
    cases r with
    | exitError c =>
      have hc : c = 0 := hcode c rfl
      subst hc
      simp [Run, GenerateCommand, hbin, hname, Command, hrun, Cmd.String]
    | other msg => simp [Run, GenerateCommand, hbin, hname, Command, hrun, Cmd.String]

/-- C3 (what the code does): when the build subprocess fails with an error
that is not an exit status (it could not be started, say), Run drops that
error, keeps Code = 0 and goes on to the inspect phase; if the inspect phase
succeeds, Run returns no error and a result with Code = 0. -/
theorem Run_start_failure_continues {σ : Type} (os : OS σ) (workdir : String)
    (e : Executor) (s : Sys σ) (p msg o serr : String) (w1 : σ)
    (info : Option GoMap) (s2 : Sys σ)
    (hname : e.ImageName ≠ "")
    (hbin : os.LookPath s.world
        (os.Clean (if e.PackBinary = "" then "pack" else e.PackBinary)) = Except.ok p)
    (hrun : os.Run s.world { Path := p, Args := p :: generateArgs e, Dir := workdir }
        = ({ stdout := o, stderr := serr, err := some (RunError.other msg) }, w1))
    (hinspect : GenerateImageInfo os e
        { world := w1,
          started := s.started
            ++ [{ Path := p, Args := p :: generateArgs e, Dir := workdir }] }
        = ((info, none), s2)) :
    Run os workdir (Except.ok e) s
      = (Outcome.returned
          (some { Code := 0, Command := " ".intercalate (p :: generateArgs e),
                  Systemout := o, Systemerr := serr, ImageInfo := info }, none), s2) := by
  rw [Run_after_build os workdir e s p _ w1 hname hbin hrun (by intro c h; cases h), hinspect]

/-- The failing input of C3: the build could not be started, the inspect
subprocess reports an image. -/
theorem Run_start_failure_continues_witness :
    Run (scriptedOS (fun _ => true)
          { err := some (RunError.other "fork/exec /usr/local/bin/pack: permission denied") }
          (Except.ok (InspectOutput.value reportAbc)))
        "/work" (Except.ok { ImageName := "img" }) { world := 0 }
      = (Outcome.returned
          (some { Code := 0, Command := "/usr/local/bin/pack build img", Systemout := "",
                  Systemerr := "", ImageInfo := some [("id", GoValue.str "sha256:abc")] },
           none),
         { world := 2,
           started := [{ Path := "/usr/local/bin/pack",
                         Args := ["/usr/local/bin/pack", "build", "img"], Dir := "/work" },
                       { Path := "/usr/local/bin/pack",
                         Args := ["/usr/local/bin/pack", "inspect", "img", "--output",
                                  "json", "-q"],
                         Dir := "" }] }) :=
  Run_start_failure_continues (scriptedOS (fun _ => true)
      { err := some (RunError.other "fork/exec /usr/local/bin/pack: permission denied") }
      (Except.ok (InspectOutput.value reportAbc)))
    "/work" { ImageName := "img" } { world := 0 } "/usr/local/bin/pack"
    "fork/exec /usr/local/bin/pack: permission denied" "" "" 1
    (some [("id", GoValue.str "sha256:abc")]) _ (by decide) rfl rfl rfl

/-- GenerateImageInfo with the binary resolved starts exactly one subprocess,
the inspect command, whatever that subprocess does. -/
theorem GenerateImageInfo_started {σ : Type} (os : OS σ) (e : Executor) (s : Sys σ)
    (p : String) (hname : e.ImageName ≠ "")
    (hbin : os.LookPath s.world
        (os.Clean (if e.PackBinary = "" then "pack" else e.PackBinary)) = Except.ok p) :
    (GenerateImageInfo os e s).2.started
      = s.started
          ++ [{ Path := p, Args := [p, "inspect", e.ImageName, "--output", "json", "-q"],
                Dir := "" }] := by
  cases hout : os.Output s.world
      (Command p ["inspect", e.ImageName, "--output", "json", "-q"]) with
  | mk output w1 =>
    cases output with
    | error err =>
      unfold GenerateImageInfo
      simp only [hbin, hname, if_false, hout]
      simp [Command]
    | ok out =>
      rw [GenerateImageInfo_decoded os e s p out w1 hname hbin hout]
      simp [Command]

/-- C5 (amended): for valid options whose build subprocess exits with code 0
and whose binary is resolved again for the inspect phase, Run starts, after
the build, exactly one more subprocess: the resolved binary with exactly the
arguments `inspect <ImageName> --output json -q`, whatever that subprocess
then does; and when its output is a JSON object in which `local_info` is the
only member whose key matches `local_info` up to the case of letters, and that
member's value is an object X, Run returns no error and a result with Code = 0
and ImageInfo the map of X. -/
theorem Run_inspect_info {σ : Type} (os : OS σ) (workdir : String) (e : Executor)
    (s : Sys σ) (p p2 o serr : String) (w1 : σ)
    (hname : e.ImageName ≠ "")
    (hbin : os.LookPath s.world
        (os.Clean (if e.PackBinary = "" then "pack" else e.PackBinary)) = Except.ok p)
    (hrun : os.Run s.world { Path := p, Args := p :: generateArgs e, Dir := workdir }
        = ({ stdout := o, stderr := serr, err := none }, w1))
    (hbin2 : os.LookPath w1
        (os.Clean (if e.PackBinary = "" then "pack" else e.PackBinary)) = Except.ok p2) :
    (Run os workdir (Except.ok e) s).2.started
        = s.started
            ++ [{ Path := p, Args := p :: generateArgs e, Dir := workdir },
                { Path := p2,
                  Args := [p2, "inspect", e.ImageName, "--output", "json", "-q"],
                  Dir := "" }]
      ∧ ∀ (w2 : σ) (members X : List (String × JValue)),
          os.Output w1
              { Path := p2, Args := [p2, "inspect", e.ImageName, "--output", "json", "-q"],
                Dir := "" }
            = (Except.ok (InspectOutput.value (JValue.obj members)), w2) →
          (members.filter fun m => equalFold m.1 infoTag)
            = [("local_info", JValue.obj X)] →
          Run os workdir (Except.ok e) s
            = (Outcome.returned
                (some { Code := 0, Command := " ".intercalate (p :: generateArgs e),
                        Systemout := o, Systemerr := serr,
                        ImageInfo := some (objectInto X []) }, none),
               { world := w2,
                 started := s.started
                   ++ [{ Path := p, Args := p :: generateArgs e, Dir := workdir },
                       { Path := p2,
                         Args := [p2, "inspect", e.ImageName, "--output", "json", "-q"],
                         Dir := "" }] }) := by
  rw [Run_after_build os workdir e s p _ w1 hname hbin hrun (by intro c h; cases h)]
  constructor
  · have hst := GenerateImageInfo_started os e
      { world := w1,
        started := s.started
          ++ [{ Path := p, Args := p :: generateArgs e, Dir := workdir }] } p2 hname hbin2
    cases hg : GenerateImageInfo os e
        { world := w1,
          started := s.started
            ++ [{ Path := p, Args := p :: generateArgs e, Dir := workdir }] } with
    | mk r s2 =>
      rw [hg] at hst
      obtain ⟨info, err⟩ := r
      cases err <;> simpa using hst
  · intro w2 members X hout hinfo
    rw [GenerateImageInfo_decoded os e _ p2 _ w2 hname hbin2 hout,
      JSONUnmarshal_single members X hinfo]
    simp [Command]

/-- The witness of C5: the report `{"local_info":{"id":"sha256:abc"}}` gives
ImageInfo = `{"id":"sha256:abc"}`. -/
theorem Run_inspect_info_witness :
    Run (scriptedOS (fun _ => true) {} (Except.ok (InspectOutput.value reportAbc)))
        "/work" (Except.ok { ImageName := "img" }) { world := 0 }
      = (Outcome.returned
          (some { Code := 0, Command := "/usr/local/bin/pack build img", Systemout := "",
                  Systemerr := "", ImageInfo := some [("id", GoValue.str "sha256:abc")] },
           none),
         { world := 2,
           started := [{ Path := "/usr/local/bin/pack",
                         Args := ["/usr/local/bin/pack", "build", "img"], Dir := "/work" },
                       { Path := "/usr/local/bin/pack",
                         Args := ["/usr/local/bin/pack", "inspect", "img", "--output",
                                  "json", "-q"],
                         Dir := "" }] }) :=
  (Run_inspect_info (scriptedOS (fun _ => true) {} (Except.ok (InspectOutput.value reportAbc)))
    "/work" { ImageName := "img" } { world := 0 } "/usr/local/bin/pack"
    "/usr/local/bin/pack" "" "" 1 (by decide) rfl rfl rfl).2 2
    [("local_info", JValue.obj [("id", JValue.str "sha256:abc")])]
    [("id", JValue.str "sha256:abc")] rfl rfl

/-- A sample of C5: when the inspect subprocess itself fails, the inspect
command is still the one subprocess started after the build. -/
theorem Run_inspect_started_on_failure :
    (Run (scriptedOS (fun _ => true) {} (Except.error "exit status 1"))
        "/work" (Except.ok { ImageName := "img" }) { world := 0 }).2.started
      = [{ Path := "/usr/local/bin/pack",
           Args := ["/usr/local/bin/pack", "build", "img"], Dir := "/work" },
         { Path := "/usr/local/bin/pack",
           Args := ["/usr/local/bin/pack", "inspect", "img", "--output", "json", "-q"],
           Dir := "" }] := by
  rfl

/-- C5 as stated fails: in the report
`{"local_info":{"id":"sha256:abc"},"LOCAL_INFO":{"id":"sha256:def"}}` the key
`local_info` maps to the object `{"id":"sha256:abc"}`, yet Run returns the
ImageInfo `{"id":"sha256:def"}`: the decoder stores the member `LOCAL_INFO`
into the same field. -/
theorem Run_inspect_info_counterexample :
    List.lookup "local_info"
        [("local_info", JValue.obj [("id", JValue.str "sha256:abc")]),
         ("LOCAL_INFO", JValue.obj [("id", JValue.str "sha256:def")])]
        = some (JValue.obj [("id", JValue.str "sha256:abc")])
      ∧ (Run (scriptedOS (fun _ => true) {} (Except.ok (InspectOutput.value reportTwoKeys)))
          "/work" (Except.ok { ImageName := "img" }) { world := 0 }).1
        = Outcome.returned
            (some { Code := 0, Command := "/usr/local/bin/pack build img", Systemout := "",
                    Systemerr := "",
                    ImageInfo := some [("id", GoValue.str "sha256:def")] }, none)
      ∧ objectInto [("id", JValue.str "sha256:abc")] []
        ≠ [("id", GoValue.str "sha256:def")] := by
  refine ⟨rfl, rfl, ?_⟩
  simp [objectInto, mapSet, valueInterface]


/-- C6: for valid options whose build subprocess exits with code 0, if the
inspect phase fails (the binary cannot be located, the inspect subprocess
fails, or its output is rejected by the JSON decoder), Run returns an error
together with the empty result: none of the build's Code, Command, Systemout
or Systemerr is in it. -/
theorem Run_inspect_failure_discards {σ : Type} (os : OS σ) (workdir : String)
    (e : Executor) (s : Sys σ) (p o serr : String) (w1 : σ)
    (hname : e.ImageName ≠ "")
    (hbin : os.LookPath s.world
        (os.Clean (if e.PackBinary = "" then "pack" else e.PackBinary)) = Except.ok p)
    (hrun : os.Run s.world { Path := p, Args := p :: generateArgs e, Dir := workdir }
        = ({ stdout := o, stderr := serr, err := none }, w1))
    (hfail :
      (∃ msg, os.LookPath w1
          (os.Clean (if e.PackBinary = "" then "pack" else e.PackBinary)) = Except.error msg)
      ∨ (∃ p2 msg w2,
          os.LookPath w1
            (os.Clean (if e.PackBinary = "" then "pack" else e.PackBinary)) = Except.ok p2
          ∧ os.Output w1 (Command p2 ["inspect", e.ImageName, "--output", "json", "-q"])
              = (Except.error msg, w2))
      ∨ (∃ p2 out w2 msg,
          os.LookPath w1
            (os.Clean (if e.PackBinary = "" then "pack" else e.PackBinary)) = Except.ok p2
          ∧ os.Output w1 (Command p2 ["inspect", e.ImageName, "--output", "json", "-q"])
              = (Except.ok out, w2)
          ∧ (JSONUnmarshal out).1 = some msg)) :
    ∃ err, (Run os workdir (Except.ok e) s).1
      = Outcome.returned
          (some { Code := 0, Command := "", Systemout := "", Systemerr := "",
                  ImageInfo := none },
           some ("unable to inspect image: " ++ err)) := by
  rw [Run_after_build os workdir e s p _ w1 hname hbin hrun (by intro c h; cases h)]
  rcases hfail with ⟨msg, h1⟩ | ⟨p2, msg, w2, h1, h2⟩ | ⟨p2, out, w2, msg, h1, h2, h3⟩
  · exact ⟨"unable to find pack the pack binary: " ++ msg, by
      simp [GenerateImageInfo, h1]⟩
  · exact ⟨msg, by simp [GenerateImageInfo, h1, hname, h2]⟩
  · refine ⟨"unable to extract local_info from pack inspect output: " ++ msg, ?_⟩
    rw [GenerateImageInfo_decoded os e _ p2 out w2 hname h1 h2]
    cases hj : JSONUnmarshal out with
    | mk err info =>
      rw [hj] at h3
      simp only at h3
      subst h3
      rfl

/-- The witness of C6: the build exits with code 0 and the inspect subprocess
prints something that is not JSON. -/
theorem Run_inspect_failure_discards_witness :
    ∃ err, (Run (scriptedOS (fun _ => true) { stdout := "built" }
              (Except.ok (InspectOutput.malformed "unexpected end of JSON input")))
            "/work" (Except.ok { ImageName := "img" }) { world := 0 }).1
      = Outcome.returned
          (some { Code := 0, Command := "", Systemout := "", Systemerr := "",
                  ImageInfo := none },
           some ("unable to inspect image: " ++ err)) :=
  Run_inspect_failure_discards (scriptedOS (fun _ => true) { stdout := "built" }
      (Except.ok (InspectOutput.malformed "unexpected end of JSON input")))
    "/work" { ImageName := "img" } { world := 0 } "/usr/local/bin/pack" "built" "" 1
    (by decide) rfl rfl
    (Or.inr (Or.inr ⟨"/usr/local/bin/pack",
      InspectOutput.malformed "unexpected end of JSON input", 2,
      "unexpected end of JSON input", rfl, rfl, rfl⟩))

/-- C7 (amended): after a build that exits with code 0, with the binary
resolved again and the inspect subprocess having produced its output,
GenerateImageInfo returns a parse error exactly when the output is not
well-formed JSON, or its top-level value is neither an object nor null, or a
member whose key matches `local_info` holds a value that is neither an object
nor null, and Run then returns a hard error with the empty result; on every
other output GenerateImageInfo returns no error and Run returns no error and a
result with Code = 0; on an object without a member matching `local_info` that
result has no ImageInfo. -/
theorem GenerateImageInfo_parse_error_iff {σ : Type} (os : OS σ) (workdir : String)
    (e : Executor) (s : Sys σ) (p p2 o serr : String) (w1 w2 : σ) (out : InspectOutput)
    (hname : e.ImageName ≠ "")
    (hbin : os.LookPath s.world
        (os.Clean (if e.PackBinary = "" then "pack" else e.PackBinary)) = Except.ok p)
    (hrun : os.Run s.world { Path := p, Args := p :: generateArgs e, Dir := workdir }
        = ({ stdout := o, stderr := serr, err := none }, w1))
    (hbin2 : os.LookPath w1
        (os.Clean (if e.PackBinary = "" then "pack" else e.PackBinary)) = Except.ok p2)
    (hout : os.Output w1 (Command p2 ["inspect", e.ImageName, "--output", "json", "-q"])
        = (Except.ok out, w2)) :
    ((∃ err, (GenerateImageInfo os e
            { world := w1,
              started := s.started
                ++ [{ Path := p, Args := p :: generateArgs e, Dir := workdir }] }).1
          = (none, some ("unable to extract local_info from pack inspect output: " ++ err)))
        ↔ shapeRejected out = true)
      ∧ (shapeRejected out = true →
          ∃ err, (Run os workdir (Except.ok e) s).1
            = Outcome.returned
                (some { Code := 0, Command := "", Systemout := "", Systemerr := "",
                        ImageInfo := none },
                 some ("unable to inspect image: "
                   ++ ("unable to extract local_info from pack inspect output: " ++ err))))
      ∧ (shapeRejected out = false →
          ∃ info, (GenerateImageInfo os e
              { world := w1,
                started := s.started
                  ++ [{ Path := p, Args := p :: generateArgs e, Dir := workdir }] }).1
              = (info, none)
            ∧ (Run os workdir (Except.ok e) s).1
              = Outcome.returned
                  (some { Code := 0, Command := " ".intercalate (p :: generateArgs e),
                          Systemout := o, Systemerr := serr, ImageInfo := info }, none))
      ∧ (∀ members, out = InspectOutput.value (JValue.obj members) →
          (∀ m ∈ members, equalFold m.1 infoTag = false) →
          (Run os workdir (Except.ok e) s).1
            = Outcome.returned
                (some { Code := 0, Command := " ".intercalate (p :: generateArgs e),
                        Systemout := o, Systemerr := serr, ImageInfo := none }, none)) := by
  rw [Run_after_build os workdir e s p _ w1 hname hbin hrun (by intro c h; cases h),
    GenerateImageInfo_decoded os e _ p2 out w2 hname hbin2 hout]
  have hiff := JSONUnmarshal_error_iff out
  refine ⟨?_, ?_, ?_, ?_⟩
  · cases hj : JSONUnmarshal out with
    | mk err info =>
      rw [hj] at hiff
      cases err with
      | none =>
        simp only [Option.isSome_none] at hiff
        simp [← hiff]
      | some msg =>
        simp only [Option.isSome_some] at hiff
        simp [← hiff]
  · intro hrej
    cases hj : JSONUnmarshal out with
    | mk err info =>
      rw [hj, hrej] at hiff
      cases err with
      | none => simp at hiff
      | some msg => exact ⟨msg, rfl⟩
  · intro hrej
    cases hj : JSONUnmarshal out with
    | mk err info =>
      rw [hj, hrej] at hiff
      cases err with
      | none => exact ⟨info, rfl, rfl⟩
      | some msg => simp at hiff
  · intro members hmem hno
    subst hmem
    simp [JSONUnmarshal, decodeStruct, decodeMembers_no_match members hno]

/-- The witness of C7 (amended): on the report `{"local_info":5}` after a
successful build, Run returns a hard error and the empty result. -/
theorem GenerateImageInfo_parse_error_iff_witness :
    ∃ err, (Run (scriptedOS (fun _ => true) { stdout := "built" }
              (Except.ok (InspectOutput.value reportNumberInfo)))
            "/work" (Except.ok { ImageName := "img" }) { world := 0 }).1
      = Outcome.returned
          (some { Code := 0, Command := "", Systemout := "", Systemerr := "",
                  ImageInfo := none },
           some ("unable to inspect image: "
             ++ ("unable to extract local_info from pack inspect output: " ++ err))) :=
  (GenerateImageInfo_parse_error_iff
    (scriptedOS (fun _ => true) { stdout := "built" }
      (Except.ok (InspectOutput.value reportNumberInfo)))
    "/work" { ImageName := "img" } { world := 0 } "/usr/local/bin/pack"
    "/usr/local/bin/pack" "built" "" 1 2 (InspectOutput.value reportNumberInfo)
    (by decide) rfl rfl rfl rfl).2.1 rfl

/-- C7 as stated fails: on the inspect outputs `{}` and `{"local_info":null}`,
neither of which maps `local_info` to an object, GenerateImageInfo returns no
error and no info, and Run after a successful build returns no error and a
result with Code = 0 and no ImageInfo. -/
theorem GenerateImageInfo_parse_error_counterexample :
    (GenerateImageInfo
        (scriptedOS (fun _ => true) {} (Except.ok (InspectOutput.value reportEmpty)))
        { ImageName := "img" } { world := 1 }).1 = (none, none)
      ∧ (GenerateImageInfo
          (scriptedOS (fun _ => true) {} (Except.ok (InspectOutput.value reportNullInfo)))
          { ImageName := "img" } { world := 1 }).1 = (none, none)
      ∧ (Run (scriptedOS (fun _ => true) {} (Except.ok (InspectOutput.value reportEmpty)))
          "/work" (Except.ok { ImageName := "img" }) { world := 0 }).1
        = Outcome.returned
            (some { Code := 0, Command := "/usr/local/bin/pack build img", Systemout := "",
                    Systemerr := "", ImageInfo := none }, none) :=
  ⟨rfl, rfl, rfl⟩

end pack

end BuildpacksVenom
